import Mathlib

/-!
Shallow embedding of the SerialRAM driver (src/SerialRAM.h, src/SerialRAM.cpp):
a driver for Microchip 47x04/47x16 I2C EERAM chips.  The driver state is the
three handle fields of the C++ class together with a faithful in-memory
simulation of the device (SRAM array, address pointer, control register) and
a trace of the bus transactions issued.  Machine bytes are modelled as Nat
with explicit % 256 at every point where the C++ code converts to uint8_t.
-/

namespace SerialRAM

/-- One event on the two-wire bus: a committed write transaction (target
bus address and the bytes sent between beginTransmission and
endTransmission), or a requestFrom asking for count bytes. -/
inductive BusEvent where
  | txn (addr : Nat) (bytes : List Nat)
  | req (addr : Nat) (count : Nat)
  deriving DecidableEq

/-- The in-memory simulation of the EERAM device: the SRAM array, the
current address pointer, and the control register byte. -/
structure Device where
  mem : Nat → Nat
  aptr : Nat
  ctrl : Nat

/-- Driver handle fields from SerialRAM.h (SRAM_REGISTER, CONTROL_REGISTER,
STORAGE_ARRAY_SIZE) together with the simulated device and the bus trace.
The three fields are int8_t in the header; they are stored here as the
unsigned byte values that the .cpp code reads back through uint8_t (or
integer-promoted) conversions, which is behaviourally equivalent for every
value the code ever assigns (0x50..0x56, 0x18..0x1E, 0xF8, 0xFE): the
bounds tests mask a value below 256, so the sign-extended int8_t reads
produce the same results as the plain byte values. -/
structure St where
  SRAM_REGISTER : Nat
  CONTROL_REGISTER : Nat
  STORAGE_ARRAY_SIZE : Nat
  dev : Device
  trace : List BusEvent

/-- High byte of a 16-bit value: a.a8[1] of the address16b union on the
little-endian Arduino targets this code runs on. -/
def hi8 (a : Nat) : Nat := a / 256 % 256

/-- Low byte of a 16-bit value: a.a8[0] of the address16b union. -/
def lo8 (a : Nat) : Nat := a % 256

/-- Sequential byte store performed by a committed data-bank write
transaction: the data bytes land at consecutive addresses starting at the
address pointer. -/
def writeSeq : (Nat → Nat) → Nat → List Nat → (Nat → Nat)
  | m, _, [] => m
  | m, p, b :: bs => writeSeq (fun x => if x = p then b % 256 else m x) (p + 1) bs

/-- Device-side effect of endTransmission.  A transaction to the data bank
whose buffer is [hi, lo, data...] sets the address pointer to hi*256+lo and
stores the data bytes there; a transaction to the control bank whose buffer
is [0x00, b] writes b into the control register; the [0x55, cmd] command
sequences (store/recall) touch nothing in the modelled state, since their
effect (copying between SRAM and EEPROM) is outside the modelled state. -/
def devCommit (s : St) (addr : Nat) (buf : List Nat) : Device :=
  if addr = s.SRAM_REGISTER then
    match buf with
    | hi :: lo :: data =>
      { s.dev with
        aptr := hi % 256 * 256 + lo % 256
        mem := writeSeq s.dev.mem (hi % 256 * 256 + lo % 256) data }
    | _ => s.dev
  else if addr = s.CONTROL_REGISTER then
    match buf with
    | [sel, b] => if sel = 0 then { s.dev with ctrl := b % 256 } else s.dev
    | _ => s.dev
  else s.dev

/-- beginTransmission, the queued Wire.write calls, and endTransmission,
committed as one transaction.  The faithful transport acknowledges every
byte, so the returned endTransmission status is 0 (success). -/
def wireEnd (s : St) (addr : Nat) (buf : List Nat) : Nat × St :=
  (0, { s with dev := devCommit s addr buf
               trace := s.trace ++ [BusEvent.txn addr buf] })

/-- Wire.requestFrom followed by the Wire.read calls: n bytes from the data
bank starting at the address pointer, or copies of the control register
byte from the control bank. -/
def wireRequest (s : St) (addr n : Nat) : List Nat × St :=
  let bytes :=
    if addr = s.SRAM_REGISTER then
      (List.range n).map (fun i => s.dev.mem (s.dev.aptr + i) % 256)
    else if addr = s.CONTROL_REGISTER then
      List.replicate n (s.dev.ctrl % 256)
    else
      List.replicate n 0
  (bytes, { s with trace := s.trace ++ [BusEvent.req addr n] })

/-- SerialRAM::begin (SerialRAM.cpp lines 25-50).  The arguments are the
uint8_t values of the A0 and A1 configuration pins and the SIZE (density in
kilobits) parameter. -/
def begin (s : St) (A0 A1 SIZE : Nat) : Nat × St :=
  let mask := (A0 * 2 ||| A1) % 256 * 2 % 256
  let s1 := { s with SRAM_REGISTER := 0x50 ||| mask
                     CONTROL_REGISTER := 0x18 ||| mask }
  if SIZE = 16 then (0, { s1 with STORAGE_ARRAY_SIZE := 0xf8 })
  else if SIZE = 4 then (0, { s1 with STORAGE_ARRAY_SIZE := 0xfe })
  else (1, { s1 with STORAGE_ARRAY_SIZE := 0xf8 })

/-- SerialRAM::write(const uint16_t, const uint8_t) (lines 61-73): the
single-byte write.  Status 5 is "address out of bounds" in the source's
status taxonomy (doc comment at lines 59). -/
def write (s : St) (address value : Nat) : Nat × St :=
  let arrSize := s.STORAGE_ARRAY_SIZE % 256
  if hi8 address &&& arrSize ≠ 0 then (5, s)
  else wireEnd s s.SRAM_REGISTER [hi8 address, lo8 address, value % 256]

/-- SerialRAM::read(const uint16_t) (lines 82-100): the single-byte read.
It returns 0 when the address is out of bounds (its only out-of-bounds
signal: the function has no separate status channel), otherwise the byte
read back from the device. -/
def read (s : St) (address : Nat) : Nat × St :=
  let arrSize := s.STORAGE_ARRAY_SIZE % 256
  if hi8 address &&& arrSize ≠ 0 then (0, s)
  else
    let s1 := (wireEnd s s.SRAM_REGISTER [hi8 address, lo8 address]).2
    let r := wireRequest s1 s.SRAM_REGISTER 1
    (r.1.headD 0 % 256, r.2)

/-- SerialRAM::readControlRegister (lines 102-114), the private helper used
by every control operation. -/
def readControlRegister (s : St) : Nat × St :=
  let s1 := (wireEnd s s.CONTROL_REGISTER [0x00]).2
  let r := wireRequest s1 s.CONTROL_REGISTER 1
  (r.1.headD 0 % 256, r.2)

/-- SerialRAM::setAutoStore (lines 120-128): read-modify-write of control
register bit 1.  Void in the source. -/
def setAutoStore (s : St) (value : Bool) : St :=
  let r := readControlRegister s
  let buffer := if value then r.1 ||| 0x02 else r.1 &&& 0xfd
  (wireEnd r.2 s.CONTROL_REGISTER [0x00, buffer % 256]).2

/-- SerialRAM::getAutoStore (lines 134-138). -/
def getAutoStore (s : St) : Bool × St :=
  let r := readControlRegister s
  (r.1 &&& 0x02 != 0, r.2)

/-- SerialRAM::setWriteProtect (lines 144-157): validates that the level
fits in 3 bits, then read-modify-write of control register bits 2-4. -/
def setWriteProtect (s : St) (prot : Nat) : Nat × St :=
  let protectArea := prot % 256
  if protectArea &&& 0xf8 ≠ 0 then (1, s)
  else
    let r := readControlRegister s
    let buffer := ((r.1 &&& 0xe3) ||| protectArea * 4) % 256
    let s2 := (wireEnd r.2 s.CONTROL_REGISTER [0x00, buffer]).2
    (0, s2)

/-- SerialRAM::getWriteProtect (lines 163-167). -/
def getWriteProtect (s : St) : Nat × St :=
  let r := readControlRegister s
  ((r.1 &&& 0x1c) / 4, r.2)

/-- SerialRAM::setEventBit (lines 173-181): read-modify-write of control
register bit 0.  Void in the source. -/
def setEventBit (s : St) (value : Bool) : St :=
  let r := readControlRegister s
  let buffer := if value then r.1 ||| 0x01 else r.1 &&& 0xfe
  (wireEnd r.2 s.CONTROL_REGISTER [0x00, buffer % 256]).2

/-- SerialRAM::getEventBit (lines 187-191). -/
def getEventBit (s : St) : Bool × St :=
  let r := readControlRegister s
  (r.1 &&& 0x01 != 0, r.2)

/-- SerialRAM::getMatch (lines 197-201): returns !(control & 0x80).  The
header (SerialRAM.h line 53) declares this accessor under the name
getMatchStatus; the .cpp defines the body under the name getMatch. -/
def getMatch (s : St) : Bool × St :=
  let r := readControlRegister s
  (r.1 &&& 0x80 == 0, r.2)

/-- SerialRAM::store (lines 207-213): fire-and-forget command sequence
0x55, 0x33 to the control bus address.  Void in the source. -/
def store (s : St) : St :=
  (wireEnd s s.CONTROL_REGISTER [0x55, 0x33]).2

/-- SerialRAM::recall (lines 219-225): fire-and-forget command sequence
0x55, 0xDD to the control bus address.  Void in the source. -/
def recallCmd (s : St) : St :=
  (wireEnd s s.CONTROL_REGISTER [0x55, 0xdd]).2

/-- SerialRAM::write(const uint16_t, const uint8_t*, const uint16_t)
(lines 235-252): the block write; values stands for the size bytes of the
caller's array.  The bounds test `a.a8[1] & this->STORAGE_ARRAY_SIZE`
promotes the int8_t field to int (sign extension), which agrees with
masking by the plain byte value because the tested high byte is below
256. -/
def writeBlock (s : St) (address : Nat) (values : List Nat) : Nat × St :=
  if hi8 address &&& (s.STORAGE_ARRAY_SIZE % 256) ≠ 0 then (5, s)
  else wireEnd s s.SRAM_REGISTER (hi8 address :: lo8 address :: values.map (fun b => b % 256))

/-- SerialRAM::read(const uint16_t, uint8_t*, const uint16_t)
(lines 261-283): the block read.  The function is declared to return
uint8_t, but its in-bounds path falls off the end of the function without
executing any return statement, so the returned status exists only on the
out-of-bounds path; the status is therefore modelled as an Option that is
none exactly when no return statement executes. -/
def readBlock (s : St) (address : Nat) (size : Nat) : Option Nat × List Nat × St :=
  if hi8 address &&& (s.STORAGE_ARRAY_SIZE % 256) ≠ 0 then (some 5, [], s)
  else
    let s1 := (wireEnd s s.SRAM_REGISTER [hi8 address, lo8 address]).2
    let r := wireRequest s1 s.SRAM_REGISTER size
    (none, r.1, r.2)

/-- Every operation of the handle other than begin leaves the two derived
bus addresses untouched: the class never assigns SRAM_REGISTER or
CONTROL_REGISTER outside begin. -/
def busAddrsStable : Prop :=
  ∀ (s : St) (a v n : Nat) (vals : List Nat) (b : Bool),
    (write s a v).2.SRAM_REGISTER = s.SRAM_REGISTER ∧
    (write s a v).2.CONTROL_REGISTER = s.CONTROL_REGISTER ∧
    (read s a).2.SRAM_REGISTER = s.SRAM_REGISTER ∧
    (read s a).2.CONTROL_REGISTER = s.CONTROL_REGISTER ∧
    (readControlRegister s).2.SRAM_REGISTER = s.SRAM_REGISTER ∧
    (readControlRegister s).2.CONTROL_REGISTER = s.CONTROL_REGISTER ∧
    (setAutoStore s b).SRAM_REGISTER = s.SRAM_REGISTER ∧
    (setAutoStore s b).CONTROL_REGISTER = s.CONTROL_REGISTER ∧
    (getAutoStore s).2.SRAM_REGISTER = s.SRAM_REGISTER ∧
    (getAutoStore s).2.CONTROL_REGISTER = s.CONTROL_REGISTER ∧
    (setWriteProtect s n).2.SRAM_REGISTER = s.SRAM_REGISTER ∧
    (setWriteProtect s n).2.CONTROL_REGISTER = s.CONTROL_REGISTER ∧
    (getWriteProtect s).2.SRAM_REGISTER = s.SRAM_REGISTER ∧
    (getWriteProtect s).2.CONTROL_REGISTER = s.CONTROL_REGISTER ∧
    (setEventBit s b).SRAM_REGISTER = s.SRAM_REGISTER ∧
    (setEventBit s b).CONTROL_REGISTER = s.CONTROL_REGISTER ∧
    (getEventBit s).2.SRAM_REGISTER = s.SRAM_REGISTER ∧
    (getEventBit s).2.CONTROL_REGISTER = s.CONTROL_REGISTER ∧
    (getMatch s).2.SRAM_REGISTER = s.SRAM_REGISTER ∧
    (getMatch s).2.CONTROL_REGISTER = s.CONTROL_REGISTER ∧
    (store s).SRAM_REGISTER = s.SRAM_REGISTER ∧
    (store s).CONTROL_REGISTER = s.CONTROL_REGISTER ∧
    (recallCmd s).SRAM_REGISTER = s.SRAM_REGISTER ∧
    (recallCmd s).CONTROL_REGISTER = s.CONTROL_REGISTER ∧
    (writeBlock s a vals).2.SRAM_REGISTER = s.SRAM_REGISTER ∧
    (writeBlock s a vals).2.CONTROL_REGISTER = s.CONTROL_REGISTER ∧
    (readBlock s a n).2.2.SRAM_REGISTER = s.SRAM_REGISTER ∧
    (readBlock s a n).2.2.CONTROL_REGISTER = s.CONTROL_REGISTER

/-- A concrete initial state used to instantiate theorems: bus addresses as
computed by begin with A0 = A1 = 0, 16-kilobit capacity mask, zeroed
device. -/
def st0 : St :=
  { SRAM_REGISTER := 0x50
    CONTROL_REGISTER := 0x18
    STORAGE_ARRAY_SIZE := 0xf8
    dev := { mem := fun _ => 0, aptr := 0, ctrl := 0 }
    trace := [] }

/-- A concrete state whose control register byte has bit 7 set. -/
def st80 : St :=
  { SRAM_REGISTER := 0x50
    CONTROL_REGISTER := 0x18
    STORAGE_ARRAY_SIZE := 0xf8
    dev := { mem := fun _ => 0, aptr := 0, ctrl := 0x80 }
    trace := [] }



/-! ## Helper lemmas on byte arithmetic and the driver operations -/

set_option maxRecDepth 4096 in
/-- A byte above 7 has at least one bit in the 0xF8 mask. -/
lemma ge8_byte_land : ∀ p < 256, 7 < p → p &&& 0xf8 ≠ 0 := by decide

/-- A 3-bit level has no bit in the 0xF8 mask. -/
lemma lt8_land_f8 : ∀ q < 8, q &&& 0xf8 = 0 := by decide

set_option maxRecDepth 4096 in
/-- Decoding bits 2-4 after the read-modify-write recovers the level. -/
lemma wp_decode : ∀ c < 256, ∀ q < 8, (((c &&& 0xe3 ||| q * 4) % 256) &&& 0x1c) / 4 = q := by
  decide

set_option maxRecDepth 4096 in
/-- Setting bit 1 of a byte leaves the bits of the 0xFD mask unchanged. -/
lemma lor2_frame : ∀ c < 256, ((c ||| 2) % 256) &&& 0xfd = c &&& 0xfd := by decide

set_option maxRecDepth 4096 in
/-- Clearing bit 1 of a byte leaves the bits of the 0xFD mask unchanged. -/
lemma land_fd_frame : ∀ c < 256, ((c &&& 0xfd) % 256) &&& 0xfd = c &&& 0xfd := by decide

set_option maxRecDepth 4096 in
/-- Setting bit 0 of a byte leaves the bits of the 0xFE mask unchanged. -/
lemma lor1_frame : ∀ c < 256, ((c ||| 1) % 256) &&& 0xfe = c &&& 0xfe := by decide

set_option maxRecDepth 4096 in
/-- Clearing bit 0 of a byte leaves the bits of the 0xFE mask unchanged. -/
lemma land_fe_frame : ∀ c < 256, ((c &&& 0xfe) % 256) &&& 0xfe = c &&& 0xfe := by decide

set_option maxRecDepth 4096 in
/-- The write-protect read-modify-write leaves the bits of the 0xE3 mask
(everything outside bits 2-4) unchanged. -/
lemma wp_frame : ∀ c < 256, ∀ q < 8, (((c &&& 0xe3 ||| q * 4) % 256) &&& 0xe3) = c &&& 0xe3 := by
  decide

set_option maxRecDepth 4096 in
/-- Masking a byte with 0x80 and comparing with zero computes the negation
of its bit 7. -/
lemma match_bit7 : ∀ c < 256, ((c &&& 0x80 == 0) = !(c.testBit 7)) := by decide

/-- No operation of the class other than begin assigns the SRAM_REGISTER or
CONTROL_REGISTER fields. -/
lemma busAddrsStable_holds : busAddrsStable := by
  intro s a v n vals b
  refine ⟨?_, ?_, ?_, ?_, ?_, ?_, ?_, ?_, ?_, ?_, ?_, ?_, ?_, ?_, ?_, ?_, ?_, ?_,
    ?_, ?_, ?_, ?_, ?_, ?_, ?_, ?_, ?_, ?_⟩ <;>
    first
      | rfl
      | (simp only [write, wireEnd]; split <;> rfl)
      | (simp only [read, wireEnd]; split <;> rfl)
      | (simp only [setWriteProtect, readControlRegister, wireEnd, wireRequest]; split <;> rfl)
      | (simp only [writeBlock, wireEnd]; split <;> rfl)
      | (simp only [readBlock, wireEnd]; split <;> rfl)

/-! ## The claims -/

/-- Claim C1: for every A0, A1 in 0,1 and every density in 4,16, after
begin the handle's data bus address equals 0x50 ||| ((A0<<1 ||| A1)<<1) and
its control bus address equals 0x18 ||| ((A0<<1 ||| A1)<<1); and both stay
fixed for the lifetime of the handle, since no operation other than begin
assigns either field (busAddrsStable). -/
theorem begin_bus_addresses_fixed (s0 : St) (A0 A1 SIZE : Nat)
    (hA0 : A0 = 0 ∨ A0 = 1) (hA1 : A1 = 0 ∨ A1 = 1) (hSIZE : SIZE = 4 ∨ SIZE = 16) :
    (begin s0 A0 A1 SIZE).2.SRAM_REGISTER = 0x50 ||| ((A0 <<< 1 ||| A1) <<< 1) ∧
    (begin s0 A0 A1 SIZE).2.CONTROL_REGISTER = 0x18 ||| ((A0 <<< 1 ||| A1) <<< 1) ∧
    busAddrsStable := by
  refine ⟨?_, ?_, busAddrsStable_holds⟩ <;>
    rcases hA0 with rfl | rfl <;> rcases hA1 with rfl | rfl <;>
      rcases hSIZE with rfl | rfl <;> simp [begin]

/-- Witness for C1 at A0 = 1, A1 = 1, density 16. -/
theorem begin_bus_addresses_fixed_witness :
    (begin st0 1 1 16).2.SRAM_REGISTER = 0x50 ||| ((1 <<< 1 ||| 1) <<< 1) ∧
    (begin st0 1 1 16).2.CONTROL_REGISTER = 0x18 ||| ((1 <<< 1 ||| 1) <<< 1) ∧
    busAddrsStable :=
  begin_bus_addresses_fixed st0 1 1 16 (Or.inr rfl) (Or.inr rfl) (Or.inr rfl)

/-- Claim C2: for every 16-bit offset whose high byte masked with the
capacity mask is nonzero, the single-byte write returns status 5 (the
source's "address out of bounds" code) and the single-byte read returns the
value 0 (its only out-of-bounds signal: the function returns just a byte),
and neither operation changes the state at all, in particular neither
appends any bus transaction to the trace. -/
theorem oob_byte_ops_no_transaction (s : St) (addr v : Nat)
    (h : hi8 addr &&& (s.STORAGE_ARRAY_SIZE % 256) ≠ 0) :
    write s addr v = (5, s) ∧ read s addr = (0, s) := by
  constructor <;> simp [write, read, h]

/-- Witness for C2 at offset 0x0800 on a 16-kilobit handle. -/
theorem oob_byte_ops_no_transaction_witness :
    hi8 0x0800 &&& (st0.STORAGE_ARRAY_SIZE % 256) ≠ 0 ∧
    write st0 0x0800 1 = (5, st0) ∧ read st0 0x0800 = (0, st0) :=
  ⟨by decide, oob_byte_ops_no_transaction st0 0x0800 1 (by decide)⟩

/-- Claim C3: for every in-bounds address and every byte v, with the bus
transport modelled as a faithful in-memory simulation of the device, the
single-byte write followed by the single-byte read at the same address
returns status 0 (success) from the write and the value v from the read. -/
theorem write_read_roundtrip (s : St) (addr v : Nat)
    (_haddr : addr < 65536) (hv : v < 256)
    (hin : hi8 addr &&& (s.STORAGE_ARRAY_SIZE % 256) = 0) :
    (write s addr v).1 = 0 ∧ (read (write s addr v).2 addr).1 = v := by
  unfold write read wireEnd wireRequest devCommit
  simp [hin, writeSeq, List.range_succ, Nat.mod_eq_of_lt hv]

/-- Witness for C3 at address 0x07FF with value 171. -/
theorem write_read_roundtrip_witness :
    (write st0 0x07ff 171).1 = 0 ∧ (read (write st0 0x07ff 171).2 0x07ff).1 = 171 :=
  write_read_roundtrip st0 0x07ff 171 (by decide) (by decide) (by decide)

/-- Claim C4: begin with density 16 sets STORAGE_ARRAY_SIZE to 0xF8 and
returns 0 (success); with density 4 it sets 0xFE and returns 0; with any
other density it still sets 0xF8 (the handle stays configured) and returns
1 (the validation failure status). -/
theorem begin_density_mask (s : St) (A0 A1 SIZE : Nat)
    (h16 : SIZE ≠ 16) (h4 : SIZE ≠ 4) :
    (begin s A0 A1 16).1 = 0 ∧ (begin s A0 A1 16).2.STORAGE_ARRAY_SIZE = 0xf8 ∧
    (begin s A0 A1 4).1 = 0 ∧ (begin s A0 A1 4).2.STORAGE_ARRAY_SIZE = 0xfe ∧
    (begin s A0 A1 SIZE).1 = 1 ∧ (begin s A0 A1 SIZE).2.STORAGE_ARRAY_SIZE = 0xf8 := by
  unfold begin; simp [h16, h4]

/-- Witness for C4 with the unsupported density 7. -/
theorem begin_density_mask_witness :
    (begin st0 0 0 16).1 = 0 ∧ (begin st0 0 0 16).2.STORAGE_ARRAY_SIZE = 0xf8 ∧
    (begin st0 0 0 4).1 = 0 ∧ (begin st0 0 0 4).2.STORAGE_ARRAY_SIZE = 0xfe ∧
    (begin st0 0 0 7).1 = 1 ∧ (begin st0 0 0 7).2.STORAGE_ARRAY_SIZE = 0xf8 :=
  begin_density_mask st0 0 0 7 (by decide) (by decide)

/-- Claim C5: the block write and the block read return the out-of-bounds
status 5 exactly when the high byte of the starting offset masked with the
capacity mask is nonzero; the test involves neither the payload (vals) nor
the requested count (n), so an access whose end crosses the device capacity
is never rejected.  The block read's status is an Option because its
in-bounds path executes no return statement (see C6): it is some 5 exactly
on the out-of-bounds path. -/
theorem block_bounds_check_length_independent (s : St) (addr n : Nat) (vals : List Nat) :
    ((writeBlock s addr vals).1 = 5 ↔ hi8 addr &&& (s.STORAGE_ARRAY_SIZE % 256) ≠ 0) ∧
    ((readBlock s addr n).1 = some 5 ↔ hi8 addr &&& (s.STORAGE_ARRAY_SIZE % 256) ≠ 0) := by
  unfold writeBlock readBlock wireEnd
  constructor <;> split <;> simp_all

/-- Claim C6: the block read is declared to return a status byte, but on
every in-bounds starting offset the function reaches its end without
executing a return statement (modelled as none), so its returned status is
defined only on the out-of-bounds path, where it is 5. -/
theorem readBlock_status_undefined_inbounds (s : St) (addr n : Nat) :
    (readBlock s addr n).1 =
      if hi8 addr &&& (s.STORAGE_ARRAY_SIZE % 256) ≠ 0 then some 5 else none := by
  unfold readBlock; split <;> simp_all

/-- Claim C7: setWriteProtect with a level above 7 returns 1 (the invalid
argument status) leaving the state untouched, so no bus call is issued; for
a level in 0-7, on the faithful transport, setWriteProtect returns 0 and a
following getWriteProtect returns that level.  The hypothesis that the two
bus addresses differ holds for every initialized handle (0x18 ||| mask
never equals 0x50 ||| mask). -/
theorem writeProtect_validate_roundtrip (s : St) (p q : Nat)
    (hp : 7 < p) (hp2 : p < 256) (hq : q < 8)
    (hd : s.CONTROL_REGISTER ≠ s.SRAM_REGISTER) :
    setWriteProtect s p = (1, s) ∧
    (setWriteProtect s q).1 = 0 ∧
    (getWriteProtect (setWriteProtect s q).2).1 = q := by
  have hpm : p % 256 = p := Nat.mod_eq_of_lt hp2
  have hqm : q % 256 = q := Nat.mod_eq_of_lt (by omega)
  have hq0 : q &&& 0xf8 = 0 := lt8_land_f8 q hq
  refine ⟨?_, ?_, ?_⟩
  · unfold setWriteProtect
    simp [hpm, ge8_byte_land p hp2 hp]
  · unfold setWriteProtect
    simp [hqm, hq0]
  · unfold setWriteProtect getWriteProtect readControlRegister wireEnd wireRequest devCommit
    simp [hqm, hq0, hd]
    exact wp_decode (s.dev.ctrl % 256) (Nat.mod_lt _ (by norm_num)) q hq

/-- Witness for C7 with level 8 rejected and level 5 round-tripped on a
handle whose control register starts at 0x80. -/
theorem writeProtect_validate_roundtrip_witness :
    setWriteProtect st80 8 = (1, st80) ∧
    (setWriteProtect st80 5).1 = 0 ∧
    (getWriteProtect (setWriteProtect st80 5).2).1 = 5 :=
  writeProtect_validate_roundtrip st80 8 5 (by decide) (by decide) (by decide) (by decide)

/-- Claim C8: each control-bit setter writes back a byte that differs from
the freshly read control register only in its own bitfield: after
setAutoStore every bit of the 0xFD mask (all bits except bit 1) is
unchanged, after setEventBit every bit of the 0xFE mask (all except bit 0)
is unchanged, and after setWriteProtect every bit of the 0xE3 mask (all
except bits 2-4) is unchanged. -/
theorem setters_frame_effect (s : St) (v w : Bool) (q : Nat) (hq : q < 8)
    (hc : s.dev.ctrl < 256) (hd : s.CONTROL_REGISTER ≠ s.SRAM_REGISTER) :
    ((setAutoStore s v).dev.ctrl &&& 0xfd = s.dev.ctrl &&& 0xfd) ∧
    ((setEventBit s w).dev.ctrl &&& 0xfe = s.dev.ctrl &&& 0xfe) ∧
    ((setWriteProtect s q).2.dev.ctrl &&& 0xe3 = s.dev.ctrl &&& 0xe3) := by
  have hcm : s.dev.ctrl % 256 = s.dev.ctrl := Nat.mod_eq_of_lt hc
  have hqm : q % 256 = q := Nat.mod_eq_of_lt (by omega)
  refine ⟨?_, ?_, ?_⟩
  · unfold setAutoStore readControlRegister wireEnd wireRequest devCommit
    cases v <;> simp [hd, hcm, lor2_frame s.dev.ctrl hc, land_fd_frame s.dev.ctrl hc]
  · unfold setEventBit readControlRegister wireEnd wireRequest devCommit
    cases w <;> simp [hd, hcm, lor1_frame s.dev.ctrl hc, land_fe_frame s.dev.ctrl hc]
  · unfold setWriteProtect readControlRegister wireEnd wireRequest devCommit
    simp [hd, hcm, hqm, lt8_land_f8 q hq, wp_frame s.dev.ctrl hc q hq]

/-- Witness for C8 on a handle whose control register starts at 0x80. -/
theorem setters_frame_effect_witness :
    ((setAutoStore st80 true).dev.ctrl &&& 0xfd = st80.dev.ctrl &&& 0xfd) ∧
    ((setEventBit st80 false).dev.ctrl &&& 0xfe = st80.dev.ctrl &&& 0xfe) ∧
    ((setWriteProtect st80 5).2.dev.ctrl &&& 0xe3 = st80.dev.ctrl &&& 0xe3) :=
  setters_frame_effect st80 true false 5 (by decide) (by decide) (by decide)

/-- Claim C9: store appends to the bus trace exactly one transaction, to
the control bus address, whose bytes are 0x55, 0x33, and recall appends
exactly one transaction with bytes 0x55, 0xDD; neither appends any request
event (so no response is read) and both are void in the source (the
embedding returns only the state, no status). -/
theorem store_recall_trace (s : St) :
    (store s).trace = s.trace ++ [BusEvent.txn s.CONTROL_REGISTER [0x55, 0x33]] ∧
    (recallCmd s).trace = s.trace ++ [BusEvent.txn s.CONTROL_REGISTER [0x55, 0xdd]] :=
  ⟨rfl, rfl⟩

/-- Claim C10: the mismatch-status getter returns true exactly when bit 7
of the control register byte read from the device is 0 (inverted encoding);
in particular it returns true when the register is 0x00 and false when it
is 0x80 (see the witness). -/
theorem getMatch_inverted_bit7 (s : St) (hd : s.CONTROL_REGISTER ≠ s.SRAM_REGISTER) :
    (getMatch s).1 = !(s.dev.ctrl.testBit 7) := by
  unfold getMatch readControlRegister wireEnd wireRequest devCommit
  have h7 : (s.dev.ctrl % 256).testBit 7 = s.dev.ctrl.testBit 7 := by
    have h : (256 : Nat) = 2 ^ 8 := by norm_num
    rw [h, Nat.testBit_mod_two_pow]; simp
  simp [hd]
  rw [match_bit7 (s.dev.ctrl % 256) (Nat.mod_lt _ (by norm_num)), h7]

/-- Witness for C10: control register 0x00 gives true, 0x80 gives false. -/
theorem getMatch_inverted_bit7_witness :
    (getMatch st0).1 = true ∧ (getMatch st80).1 = false := by
  constructor
  · rw [getMatch_inverted_bit7 st0 (by decide)]; decide
  · rw [getMatch_inverted_bit7 st80 (by decide)]; decide

end SerialRAM
